import Mathlib

/-!
Verification development for the soundscape review service.

The service stores user "reviews" (ratings of audio items) in a single
relational table and exposes four operations: submit/update a review,
list a session's reviews, admin list/export (JSON or CSV), and admin
analytics.  Two adapters wrap the same logic: a standalone Express
server (`server.js`) and a serverless function (the unnamed source
file).  The definitions below are a shallow embedding of that code:

* the database table is a `List Row` (plus a serial counter in `Store`);
* SQL `ORDER BY created_at DESC` is modelled by `List.insertionSort`
  on the reflected order `revOrd`;
* JavaScript truthiness on request fields (`!audioId`, `!title`,
  `!sessionId`, `a || b`) is modelled by `jsFalsyInt` / `jsFalsyStr` /
  `jsOrStr`, with request fields of type `Option _` (absent = `none`;
  present values carry the expected type);
* machine timestamps (`created_at`, `updated_at`, the server clock)
  are abstract `Nat` values supplied by the caller;
* ratings are exact rationals (`ℚ`), standing for the JS numbers and
  the `DECIMAL(3,2)` column.
-/

/-- One row of the `reviews` table (`CREATE TABLE reviews ...` in
`server.js`).  Nullable columns are `Option`; `NOT NULL` text columns
that the handlers nevertheless bind from optional request fields are
kept as `Option String` (binding an absent field would be rejected by
the database, which is outside the claims considered here). -/
structure Row where
  id : Nat
  audio_id : Int
  title : String
  rating : ℚ
  timestamp : Option String
  date : Option String
  time : Option String
  user_agent : Option String
  session_id : String
  ip_address : Option String
  created_at : Nat
  updated_at : Nat
deriving Repr, DecidableEq

/-- The database state: the table rows plus the next value of the
`SERIAL` primary-key sequence. -/
structure Store where
  rows : List Row
  nextId : Nat
deriving Repr, DecidableEq

/-- Body of a POST /reviews request.  `none` models an absent field. -/
structure ReviewBody where
  audioId : Option Int
  title : Option String
  rating : Option ℚ
  timestamp : Option String
  date : Option String
  time : Option String
  userAgent : Option String
  sessionId : Option String
deriving Repr, DecidableEq

/-- The request headers consulted for the client IP by the serverless
adapter (`x-forwarded-for`, `x-real-ip`). -/
structure Headers where
  xForwardedFor : Option String
  xRealIp : Option String
deriving Repr, DecidableEq

/-- JavaScript truthiness test on an optional string: `!s` is true for
`undefined` and for the empty string. -/
def jsFalsyStr : Option String → Bool
  | none => true
  | some s => s = ""

/-- JavaScript truthiness test on an optional number: `!n` is true for
`undefined` and for `0`. -/
def jsFalsyInt : Option Int → Bool
  | none => true
  | some n => n = 0

/-- JavaScript `a || b` where `a` is an optional string: returns `a`
when it is truthy (present and non-empty), else `b`. -/
def jsOrStr (a : Option String) (b : String) : String :=
  match a with
  | none => b
  | some s => if s = "" then b else s

/-- Client IP of the serverless adapter:
`event.headers["x-forwarded-for"] || event.headers["x-real-ip"] || "unknown"`. -/
def clientIp (h : Headers) : String :=
  jsOrStr h.xForwardedFor (jsOrStr h.xRealIp "unknown")

/-- The SQL ordering `ORDER BY created_at DESC`, as a relation on rows:
`a` comes no later than `b` when its `created_at` is no smaller. -/
def revOrd (a b : Row) : Prop := b.created_at ≤ a.created_at

instance : DecidableRel revOrd := fun a b => Nat.decLe b.created_at a.created_at

instance : IsTotal Row revOrd :=
  ⟨fun a b => (Nat.le_total b.created_at a.created_at).elim Or.inl Or.inr⟩

instance : IsTrans Row revOrd :=
  ⟨fun _ _ _ hab hbc => Nat.le_trans hbc hab⟩

/-- Rows matching a (session_id, audio_id) pair, as in
`SELECT id FROM reviews WHERE session_id = $1 AND audio_id = $2`. -/
def pairB (sid : String) (aid : Int) (r : Row) : Bool :=
  r.session_id = sid && r.audio_id = aid

/-- Number of table rows for a given (session_id, audio_id) pair. -/
def countPair (sid : String) (aid : Int) (st : Store) : Nat :=
  (st.rows.filter (pairB sid aid)).length

/-- Result of the submit/update handler: a 400 validation failure with
its message, or a 200 success carrying the returned row id
(`{success:true, id, message}`). -/
inductive SubmitResp
  | badReq (msg : String)
  | ok (id : Nat)
deriving Repr, DecidableEq

/-- HTTP status of a submit result: 400 for a validation failure, 200
for success. -/
def SubmitResp.status : SubmitResp → Nat
  | .badReq _ => 400
  | .ok _ => 200

/-- The row mutation of the `UPDATE reviews SET title = $1, rating =
$2, timestamp = $3, date = $4, time = $5, user_agent = $6, ip_address
= $7, updated_at = CURRENT_TIMESTAMP` statement: all mutable fields
rebound, key fields and `created_at` untouched. -/
def updatedRow (clock : Nat) (ip : String) (title : String) (r : ℚ)
    (ts date time ua : Option String) (row : Row) : Row :=
  { row with title := title, rating := r, timestamp := ts,
             date := date, time := time, user_agent := ua,
             ip_address := some ip, updated_at := clock }

/-- The row built by the `INSERT INTO reviews ... RETURNING id`
statement, with the fresh serial id and server-assigned timestamps. -/
def insertedRow (clock : Nat) (ip : String) (aid : Int) (title : String)
    (r : ℚ) (ts date time ua : Option String) (sid : String)
    (id : Nat) : Row :=
  { id := id, audio_id := aid, title := title, rating := r,
    timestamp := ts, date := date, time := time, user_agent := ua,
    session_id := sid, ip_address := some ip,
    created_at := clock, updated_at := clock }

/-- The post-validation part of the submit handler: look up existing
rows for the (session, audio) pair; if any exist run the `UPDATE ...
WHERE session_id = $8 AND audio_id = $9 RETURNING id` (the handler
reads `rows[0].id`), else run the `INSERT ... RETURNING id` which
yields the fresh serial id. -/
def submitCore (clock : Nat) (ip : String) (aid : Int) (title : String)
    (r : ℚ) (ts date time ua : Option String) (sid : String)
    (st : Store) : SubmitResp × Store :=
  match st.rows.filter (pairB sid aid) with
  | e :: _ =>
      (.ok e.id,
       { st with rows := st.rows.map (fun row =>
          if pairB sid aid row then
            updatedRow clock ip title r ts date time ua row
          else row) })
  | [] =>
      (.ok st.nextId,
       { rows := st.rows ++
          [insertedRow clock ip aid title r ts date time ua sid st.nextId],
         nextId := st.nextId + 1 })

/-- The submit/update handler (`submitReview` in the serverless file,
`POST /api/reviews` in `server.js`): required-field check by JS
truthiness (`!audioId || !title || rating === undefined ||
!sessionId`), then the range check `rating < 0 || rating > 5`, then
the read-check-then-insert-or-update against the store.  Returns the
response together with the store after the request.  The client-IP
derivation follows the serverless adapter (`clientIp`); the standalone
server instead uses `req.ip || req.connection.remoteAddress`, which
the IP-independent claims below do not distinguish. -/
def submitReview (clock : Nat) (h : Headers) (b : ReviewBody)
    (st : Store) : SubmitResp × Store :=
  if jsFalsyInt b.audioId || jsFalsyStr b.title || b.rating.isNone
      || jsFalsyStr b.sessionId then
    (.badReq "Missing required fields: audioId, title, rating, sessionId", st)
  else if b.rating.getD 0 < 0 ∨ 5 < b.rating.getD 0 then
    (.badReq "Rating must be between 0 and 5", st)
  else
    submitCore clock (clientIp h) (b.audioId.getD 0) (b.title.getD "")
      (b.rating.getD 0) b.timestamp b.date b.time b.userAgent
      (b.sessionId.getD "") st

/-- The public shape a row is mapped to by the session listing
(`id, audioId, title, rating as float, timestamp, date, time,
sessionId, createdAt`). -/
structure PublicReview where
  id : Nat
  audioId : Int
  title : String
  rating : ℚ
  timestamp : Option String
  date : Option String
  time : Option String
  sessionId : String
  createdAt : Nat
deriving Repr, DecidableEq

/-- The 1:1 row-to-public-shape mapping of the session listing. -/
def toPublic (r : Row) : PublicReview :=
  { id := r.id, audioId := r.audio_id, title := r.title,
    rating := r.rating, timestamp := r.timestamp, date := r.date,
    time := r.time, sessionId := r.session_id, createdAt := r.created_at }

/-- Result of the session listing: 400 with a message, or 200 with
`{success:true, reviews}`. -/
inductive GetReviewsResp
  | badReq (msg : String)
  | ok (reviews : List PublicReview)
deriving Repr, DecidableEq

/-- HTTP status of a session-listing result. -/
def GetReviewsResp.status : GetReviewsResp → Nat
  | .badReq _ => 400
  | .ok _ => 200

/-- The session listing handler (`getReviews` / `GET /api/reviews`):
400 when `sessionId` is falsy, else
`SELECT * FROM reviews WHERE session_id = $1 ORDER BY created_at DESC`
mapped 1:1 into the public shape. -/
def getReviews (sessionId : Option String) (store : List Row) :
    GetReviewsResp :=
  if jsFalsyStr sessionId then .badReq "Session ID is required"
  else
    .ok ((((store.filter
      (fun r => r.session_id = sessionId.getD "")).insertionSort
        revOrd)).map toPublic)

/-- The admin shape a row is mapped to by the admin list/export
handler (all columns, camel-cased). -/
structure AdminReview where
  id : Nat
  audioId : Int
  title : String
  rating : ℚ
  timestamp : Option String
  date : Option String
  time : Option String
  userAgent : Option String
  sessionId : String
  ipAddress : Option String
  createdAt : Nat
  updatedAt : Nat
deriving Repr, DecidableEq

/-- The 1:1 row-to-admin-shape mapping of the admin list/export. -/
def toAdmin (r : Row) : AdminReview :=
  { id := r.id, audioId := r.audio_id, title := r.title,
    rating := r.rating, timestamp := r.timestamp, date := r.date,
    time := r.time, userAgent := r.user_agent,
    sessionId := r.session_id, ipAddress := r.ip_address,
    createdAt := r.created_at, updatedAt := r.updated_at }

/-- JavaScript `Array.prototype.join(sep)` on a list of strings. -/
def jsJoin (sep : String) : List String → String
  | [] => ""
  | [x] => x
  | x :: y :: xs => x ++ sep ++ jsJoin sep (y :: xs)

/-- The title escaping of the CSV export:
`review.title.replace(/"/g, '""')`, every double quote doubled. -/
def escQuotes (s : String) : String :=
  String.join (s.toList.map (fun c => if c = '"' then "\"\"" else c.toString))

/-- Integer floor of a rational, computed on the normalized
numerator/denominator (used for SQL `FLOOR(rating)` and for decimal
rendering). -/
def floorQ (q : ℚ) : Int := q.num.fdiv q.den

/-- How JavaScript prints the rating number in the CSV line: an
integer prints with no decimal point; a value with at most two decimal
places (the `DECIMAL(3,2)` column guarantees this for stored ratings)
prints its decimal expansion with trailing zeros stripped.  Other
rationals (never produced by the code) fall back to `num/den`. -/
def ratToStr (q : ℚ) : String :=
  let sign := if q.num < 0 then "-" else ""
  let a := q.num.natAbs
  if q.den = 1 then sign ++ toString a
  else if 100 % q.den = 0 then
    let scaled := a * (100 / q.den)
    let ip := scaled / 100
    let fr := scaled % 100
    if fr % 10 = 0 then sign ++ toString ip ++ "." ++ toString (fr / 10)
    else if fr < 10 then sign ++ toString ip ++ ".0" ++ toString fr
    else sign ++ toString ip ++ "." ++ toString fr
  else sign ++ toString a ++ "/" ++ toString q.den

/-- JavaScript `Number.prototype.toFixed(2)` on an exact rational: the
nearest integer `n` to `q * 100` (ties towards the larger `n`, as ECMA
specifies), printed with exactly two fraction digits, the sign taken
from `q` itself (so a tiny negative value prints as `-0.00`).
Computed purely on the numerator and denominator so that it evaluates
by kernel reduction: `⌊q * 100 + 1/2⌋ = (200 num + den) fdiv (2 den)`. -/
def toFixed2 (q : ℚ) : String :=
  let n : Int := Int.fdiv (200 * q.num + q.den) (2 * q.den)
  let sign := if q.num < 0 then "-" else ""
  let a := n.natAbs
  let fr := a % 100
  sign ++ toString (a / 100) ++ "." ++
    (if fr < 10 then "0" ++ toString fr else toString fr)

/-- One CSV data line of the export: the nine fields in the fixed
column order, joined by commas; the title is wrapped in double quotes
with internal quotes doubled; `null` fields render as the empty string
(JS `join` semantics). -/
def csvLine (rv : AdminReview) : String :=
  jsJoin ","
    [toString rv.id, toString rv.audioId,
     "\"" ++ escQuotes rv.title ++ "\"",
     ratToStr rv.rating, rv.date.getD "", rv.time.getD "",
     rv.sessionId, rv.ipAddress.getD "", toString rv.createdAt]

/-- The CSV header line, `headers.join(",")` over the fixed column
names. -/
def csvHeaderLine : String :=
  jsJoin ","
    ["ID", "Audio ID", "Title", "Rating", "Date", "Time", "Session ID",
     "IP Address", "Created At"]

/-- Pagination echo of the admin JSON response. -/
structure Pagination where
  limit : Nat
  offset : Nat
deriving Repr, DecidableEq

/-- JSON body of the admin list response:
`{success, reviews, totalCount, pagination}`. -/
structure AdminJson where
  success : Bool
  reviews : List AdminReview
  totalCount : Nat
  pagination : Pagination
deriving Repr, DecidableEq

/-- Result of the admin list/export handler: a JSON page or a CSV
document (both status 200; a store failure would be a 500, not
modelled). -/
inductive AdminResp
  | json (body : AdminJson)
  | csv (content : String)
deriving Repr, DecidableEq

/-- The admin list/export handler (`getAllReviews` /
`GET /api/admin/reviews`).  Defaults: limit 1000, offset 0, format
json.  The page is `ORDER BY created_at DESC LIMIT $1 OFFSET $2`; the
window count `COUNT(*) OVER()` attached to every returned row is the
table's total row count, and the handler reads it off the first row
(`rows.length > 0 ? parseInt(rows[0].total_count) : 0`). -/
def getAllReviews (limit offset : Option Nat) (format : Option String)
    (store : List Row) : AdminResp :=
  let el := limit.getD 1000
  let eo := offset.getD 0
  let page := ((store.insertionSort revOrd).drop eo).take el
  let reviews := page.map toAdmin
  if format.getD "json" = "csv" then
    .csv (jsJoin "\n" (csvHeaderLine :: reviews.map csvLine))
  else
    .json { success := true, reviews := reviews,
            totalCount := if page.isEmpty then 0 else store.length,
            pagination := { limit := el, offset := eo } }

/-- One entry of the analytics rating histogram: the integer floor of
the rating and the number of rows in that bucket
(`SELECT FLOOR(rating), COUNT(*) ... GROUP BY ... ORDER BY rating_floor`). -/
def ratingDistOf (store : List Row) : List (Int × Nat) :=
  (((store.map (fun r => floorQ r.rating)).dedup).insertionSort
      (fun a b => a ≤ b)).map
    (fun f => (f, (store.filter (fun r => floorQ r.rating = f)).length))

/-- One per-audio-item statistics entry of the analytics response. -/
structure AudioStat where
  audioId : Int
  title : String
  reviewCount : Nat
  averageRating : String
deriving Repr, DecidableEq

/-- Per-audio statistics (`GROUP BY audio_id, title ORDER BY
review_count DESC`), average formatted with `toFixed(2)`. -/
def audioStatsOf (store : List Row) : List AudioStat :=
  (((store.map (fun r => (r.audio_id, r.title))).dedup).map
    (fun k =>
      let grp := store.filter
        (fun r => r.audio_id = k.1 && r.title = k.2)
      { audioId := k.1, title := k.2, reviewCount := grp.length,
        averageRating :=
          toFixed2 ((grp.map Row.rating).sum / grp.length) })).insertionSort
    (fun a b => b.reviewCount ≤ a.reviewCount)

/-- Body of the analytics response
(`{totalReviews, averageRating, uniqueSessions, reviewedAudios,
firstReview, latestReview, ratingDistribution, audioStats}`). -/
structure AnalyticsResp where
  totalReviews : Nat
  averageRating : String
  uniqueSessions : Nat
  reviewedAudios : Nat
  firstReview : Option Nat
  latestReview : Option Nat
  ratingDistribution : List (Int × Nat)
  audioStats : List AudioStat
deriving Repr, DecidableEq

/-- The analytics handler (`getAnalytics` / `GET /api/admin/analytics`):
aggregate row (`COUNT(*)`, `AVG(rating)` which is SQL NULL on an empty
table and is replaced by 0 through `average_rating || 0`,
`COUNT(DISTINCT ...)`, `MIN/MAX(created_at)`), the rating histogram,
and per-audio statistics. -/
def getAnalytics (store : List Row) : AnalyticsResp :=
  let avg : ℚ :=
    if store.isEmpty then 0 else (store.map Row.rating).sum / store.length
  { totalReviews := store.length,
    averageRating := toFixed2 avg,
    uniqueSessions := (store.map Row.session_id).dedup.length,
    reviewedAudios := (store.map Row.audio_id).dedup.length,
    firstReview := (store.map Row.created_at).min?,
    latestReview := (store.map Row.created_at).max?,
    ratingDistribution := ratingDistOf store,
    audioStats := audioStatsOf store }

/-- A generic HTTP response: status, headers, raw body text. -/
structure HttpResp where
  statusCode : Nat
  headers : List (String × String)
  body : String
deriving Repr, DecidableEq

/-- The permissive CORS headers attached to every serverless
response. -/
def corsHeaders : List (String × String) :=
  [("Access-Control-Allow-Origin", "*"),
   ("Access-Control-Allow-Headers", "Content-Type"),
   ("Access-Control-Allow-Methods", "GET, POST, OPTIONS")]

/-- The JSON body of the serverless 404 response,
`JSON.stringify({error:"Not found"})`. -/
def notFoundBody : String := "\x7b\"error\":\"Not found\"\x7d"

/-- Outcome of the serverless dispatcher: either an immediate response
(preflight or 404) or a delegation to one of the four operation
handlers. -/
inductive Routed
  | resp (r : HttpResp)
  | getReviewsR
  | submitReviewR
  | getAllReviewsR
  | getAnalyticsR
deriving Repr, DecidableEq

/-- The serverless dispatcher (`exports.handler`): OPTIONS is answered
first with 200, empty body and the CORS headers; then the four routes
are matched on (path, method), `path` being `event.path` with the
function prefix already stripped; anything else falls through to 404
`{error:"Not found"}`. -/
def netlifyRoute (method path : String) : Routed :=
  if method = "OPTIONS" then .resp ⟨200, corsHeaders, ""⟩
  else if path = "/reviews" ∧ method = "GET" then .getReviewsR
  else if path = "/reviews" ∧ method = "POST" then .submitReviewR
  else if path = "/admin/reviews" ∧ method = "GET" then .getAllReviewsR
  else if path = "/admin/analytics" ∧ method = "GET" then .getAnalyticsR
  else .resp ⟨404, corsHeaders, notFoundBody⟩

/-- Routing outcome of the standalone Express server: one of the two
answering middlewares (cors preflight, static asset), one of the
registered routes, or the 404 catch-all. -/
inductive ServerRouted
  | preflight
  | staticAsset
  | apiGetReviews
  | apiPostReviews
  | apiAdminReviews
  | apiAdminAnalytics
  | rootPage
  | health
  | notFound
deriving Repr, DecidableEq

/-- The standalone server's dispatch (`server.js`), following the
middleware registration order: `app.use(cors())` first, which itself
answers every OPTIONS request with a 204 preflight response;
`app.use(express.static("public"))` next, which serves a GET or HEAD
request whose path names an existing file under `public/` — that
directory is not part of the sources, so the set of asset paths is the
parameter `publicFiles`; then the four API routes, `GET /` (the index
page), `GET /health`, and the final catch-all 404 middleware.
(`express.json` only parses bodies and answers nothing.) -/
def serverRoute (publicFiles : List String) (method path : String) :
    ServerRouted :=
  if method = "OPTIONS" then .preflight
  else if (method = "GET" ∨ method = "HEAD") ∧ path ∈ publicFiles then
    .staticAsset
  else if method = "GET" ∧ path = "/api/reviews" then .apiGetReviews
  else if method = "POST" ∧ path = "/api/reviews" then .apiPostReviews
  else if method = "GET" ∧ path = "/api/admin/reviews" then .apiAdminReviews
  else if method = "GET" ∧ path = "/api/admin/analytics" then .apiAdminAnalytics
  else if method = "GET" ∧ path = "/" then .rootPage
  else if method = "GET" ∧ path = "/health" then .health
  else .notFound

/-- Status code of the standalone server's non-API terminal outcomes:
the cors preflight answers 204, a served static asset, the index page
and the health check answer 200, the catch-all answers 404 (API routes
delegate to their handlers, `none` here). -/
def serverTerminalStatus : ServerRouted → Option Nat
  | .preflight => some 204
  | .staticAsset => some 200
  | .rootPage => some 200
  | .health => some 200
  | .notFound => some 404
  | _ => none

/-- Whether a (method, path) pair matches one of the four logical API
routes of the standalone server. -/
def isLogicalRouteServer (method path : String) : Bool :=
  (method = "GET" && path = "/api/reviews")
  || (method = "POST" && path = "/api/reviews")
  || (method = "GET" && path = "/api/admin/reviews")
  || (method = "GET" && path = "/api/admin/analytics")

/-- Whether a (method, path) pair matches one of the four logical API
routes of the serverless adapter (prefix-stripped paths). -/
def matchesNetlifyRoute (method path : String) : Bool :=
  (path = "/reviews" && method = "GET")
  || (path = "/reviews" && method = "POST")
  || (path = "/admin/reviews" && method = "GET")
  || (path = "/admin/analytics" && method = "GET")

/-- Validity of a submit request as the code accepts it: no falsy
required field and a rating within [0, 5]. -/
def validBody (b : ReviewBody) : Bool :=
  !(jsFalsyInt b.audioId) && !(jsFalsyStr b.title) && b.rating.isSome
  && !(jsFalsyStr b.sessionId)
  && decide (0 ≤ b.rating.getD 0) && decide (b.rating.getD 0 ≤ 5)

/-- The condition under which the submit handler actually answers 400:
a required field missing or falsy (`audioId` 0, empty `title` or
`sessionId`, `rating` undefined), or a rating outside [0, 5]. -/
def c2CodeCond (b : ReviewBody) : Bool :=
  jsFalsyInt b.audioId || jsFalsyStr b.title || b.rating.isNone
  || jsFalsyStr b.sessionId
  || (match b.rating with
      | some r => decide (r < 0) || decide (5 < r)
      | none => false)

/-- The claim's condition for a 400 answer, in the spec's words: a
required field missing (absent), or a rating outside [0, 5].  Declared
only to compare the claim's wording with the code's actual
truthiness-based test (`c2CodeCond`). -/
def c2SpecCond (b : ReviewBody) : Bool :=
  b.audioId.isNone || b.title.isNone || b.rating.isNone
  || b.sessionId.isNone
  || (match b.rating with
      | some r => decide (r < 0) || decide (5 < r)
      | none => false)

/-- The client-IP rule as the claim states it, in the spec's words:
first populated of the forwarded-for header, the real-ip header and
the connection's remote address, else "unknown".  Declared only to
compare with `clientIp`, which never consults the remote address. -/
def clientIpClaim (xff xrip remote : Option String) : String :=
  jsOrStr xff (jsOrStr xrip (jsOrStr remote "unknown"))

/-- C4: when the review store is empty, the analytics operation
returns `totalReviews = 0`, `averageRating = "0.00"` (SQL `AVG` is
NULL, replaced by 0 and formatted with `toFixed(2)`), zero distinct
counts, no first/latest timestamps, and empty rating-distribution and
per-audio statistics. -/
theorem getAnalytics_empty_store :
    getAnalytics [] =
      { totalReviews := 0, averageRating := "0.00",
        uniqueSessions := 0, reviewedAudios := 0, firstReview := none,
        latestReview := none, ratingDistribution := [],
        audioStats := [] } := by
  decide

/-- C9: a submit request whose `audioId` is the integer 0 — present
and well-typed — is rejected with the 400 missing-required-fields
message, whatever the other fields hold, because the validation tests
JS truthiness (`!audioId`) rather than presence; the store is returned
unchanged. -/
theorem submit_audioId_zero_rejected (clock : Nat) (h : Headers)
    (title rating ts date time ua sid st) :
    submitReview clock h
      { audioId := some 0, title := title, rating := rating,
        timestamp := ts, date := date, time := time, userAgent := ua,
        sessionId := sid } st
    = (.badReq "Missing required fields: audioId, title, rating, sessionId",
       st) := by
  simp [submitReview, jsFalsyInt]

/-- C10: a session listing whose `sessionId` is present but equal to
the empty string is answered exactly like an absent `sessionId`: 400
with "Session ID is required", independently of the store (the handler
returns before any query). -/
theorem getReviews_empty_sessionId_rejected (store store' : List Row) :
    getReviews (some "") store = .badReq "Session ID is required"
    ∧ getReviews none store' = .badReq "Session ID is required"
    ∧ getReviews (some "") store = getReviews none store' := by
  refine ⟨?_, ?_, ?_⟩ <;> simp [getReviews, jsFalsyStr]

/-- C5: every CSV data line consists of the nine fields in the fixed
column order ID, Audio ID, Title, Rating, Date, Time, Session ID,
IP Address, Created At, the title wrapped in double quotes with every
internal double quote doubled; the export is the header line followed
by one such line per review of the page; and the title
`He said "hi"` renders as `"He said ""hi"""`. -/
theorem csv_export_line_format :
    (∀ rv : AdminReview,
      csvLine rv =
        toString rv.id ++ "," ++
          (toString rv.audioId ++ "," ++
            (("\"" ++ escQuotes rv.title ++ "\"") ++ "," ++
              (ratToStr rv.rating ++ "," ++
                (rv.date.getD "" ++ "," ++
                  (rv.time.getD "" ++ "," ++
                    (rv.sessionId ++ "," ++
                      (rv.ipAddress.getD "" ++ "," ++
                        toString rv.createdAt))))))))
    ∧ (∀ limit offset store,
        getAllReviews limit offset (some "csv") store =
          .csv (jsJoin "\n" (csvHeaderLine ::
            ((((store.insertionSort revOrd).drop (offset.getD 0)).take
                (limit.getD 1000)).map (csvLine ∘ toAdmin)))))
    ∧ csvLine
        { id := 7, audioId := 3, title := "He said \"hi\"",
          rating := ⟨9, 2, by decide, by decide⟩,
          timestamp := none, date := some "2024-01-15",
          time := some "10:30", userAgent := none,
          sessionId := "sess-1", ipAddress := some "1.2.3.4",
          createdAt := 100, updatedAt := 100 }
      = "7,3,\"He said \"\"hi\"\"\",4.5,2024-01-15,10:30,sess-1,1.2.3.4,100" := by
  refine ⟨?_, ?_, ?_⟩
  · intro rv
    rfl
  · intro limit offset store
    simp [getAllReviews]
  · decide

/-- C6 counterexample: when neither IP header is populated the
serverless submit path stores the literal string "unknown" even though
the connection's remote address (here 203.0.113.9) is populated, so
the stored IP is not "the first populated among forwarded-for,
real-ip, and the connection's remote address"; a valid submission on
those headers indeed records `ip_address = "unknown"`. -/
theorem clientIp_ignores_remote_address :
    clientIp { xForwardedFor := none, xRealIp := none } = "unknown"
    ∧ clientIpClaim none none (some "203.0.113.9") = "203.0.113.9"
    ∧ ¬("unknown" : String) = "203.0.113.9"
    ∧ ((submitReview 5 { xForwardedFor := none, xRealIp := none }
          { audioId := some 1, title := some "Track A",
            rating := some 4, timestamp := none, date := some "d",
            time := some "t", userAgent := none,
            sessionId := some "s1" }
          { rows := [], nextId := 1 }).2.rows.map Row.ip_address)
        = [some "unknown"] := by
  refine ⟨by decide, by decide, by decide, by decide⟩

/-- C6 amended: the client IP stored by the serverless submit handler
is the first truthy value among the forwarded-for header and the
real-ip header, and the string "unknown" when both are absent or
empty; the connection's remote address is never consulted (the
standalone server, conversely, uses `req.ip` falling back to the
connection's remote address and never produces "unknown"). -/
theorem clientIp_header_chain (h : Headers) :
    (∀ s, h.xForwardedFor = some s → ¬s = "" → clientIp h = s)
    ∧ (jsFalsyStr h.xForwardedFor = true →
        ∀ t, h.xRealIp = some t → ¬t = "" → clientIp h = t)
    ∧ (jsFalsyStr h.xForwardedFor = true →
        jsFalsyStr h.xRealIp = true → clientIp h = "unknown") := by
  obtain ⟨xff, xrip⟩ := h
  refine ⟨?_, ?_, ?_⟩
  · intro s hs hne
    cases hs
    simp [clientIp, jsOrStr, hne]
  · intro hf t ht hne
    cases ht
    cases xff with
    | none => simp [clientIp, jsOrStr, hne]
    | some s =>
        simp [jsFalsyStr] at hf
        simp [clientIp, jsOrStr, hf, hne]
  · intro hf hr
    cases xff with
    | none =>
        cases xrip with
        | none => rfl
        | some t =>
            simp [jsFalsyStr] at hr
            simp [clientIp, jsOrStr, hr]
    | some s =>
        simp [jsFalsyStr] at hf
        cases xrip with
        | none => simp [clientIp, jsOrStr, hf]
        | some t =>
            simp [jsFalsyStr] at hr
            simp [clientIp, jsOrStr, hf, hr]

/-- C6 witness: the header chain evaluated on concrete headers — a
populated forwarded-for header wins over a populated real-ip header. -/
theorem clientIp_header_chain_witness :
    clientIp { xForwardedFor := some "1.2.3.4",
               xRealIp := some "9.9.9.9" } = "1.2.3.4" :=
  (clientIp_header_chain
    { xForwardedFor := some "1.2.3.4", xRealIp := some "9.9.9.9" }).1
    "1.2.3.4" rfl (by decide)

/-- C8 counterexample: on the standalone server the pair
(GET, /health) matches none of the four logical API routes, yet it is
never answered 404: whether or not a `public/health` asset exists, the
request is served with status 200 — by the health-check route when it
does not, by the static middleware when it does. -/
theorem server_health_route_not_404 :
    isLogicalRouteServer "GET" "/health" = false
    ∧ serverRoute [] "GET" "/health" = .health
    ∧ serverTerminalStatus (serverRoute [] "GET" "/health") = some 200
    ∧ serverRoute ["/health"] "GET" "/health" = .staticAsset
    ∧ serverTerminalStatus (serverRoute ["/health"] "GET" "/health")
        = some 200
    ∧ ¬(some 200 : Option Nat) = some 404 := by
  refine ⟨by decide, by decide, by decide, by decide, by decide,
    by decide⟩

/-- C8 amended: in the serverless adapter every OPTIONS request is
answered 200 with an empty body and the CORS headers, and every
(method, path) pair that is not OPTIONS and matches none of the four
routes is answered 404 with body `{error:"Not found"}`.  On the
standalone server the cors middleware answers every OPTIONS request
with a 204 preflight before any routing; a non-OPTIONS pair matching
none of the four logical API routes reaches the 404 catch-all unless
the static middleware serves it as a public asset (GET or HEAD on an
existing `public/` file, 200) or it is one of the extra routes GET /
and GET /health (200). -/
theorem routing_preflight_and_404 :
    (∀ p, netlifyRoute "OPTIONS" p = .resp ⟨200, corsHeaders, ""⟩)
    ∧ (∀ m p, ¬m = "OPTIONS" → matchesNetlifyRoute m p = false →
        netlifyRoute m p = .resp ⟨404, corsHeaders, notFoundBody⟩)
    ∧ (∀ publicFiles p,
        serverRoute publicFiles "OPTIONS" p = .preflight)
    ∧ (∀ publicFiles m p, ¬m = "OPTIONS" →
        isLogicalRouteServer m p = false →
        ¬((m = "GET" ∨ m = "HEAD") ∧ p ∈ publicFiles) →
        ¬(m = "GET" ∧ (p = "/" ∨ p = "/health")) →
        serverRoute publicFiles m p = .notFound)
    ∧ serverTerminalStatus .preflight = some 204
    ∧ serverTerminalStatus .staticAsset = some 200
    ∧ serverTerminalStatus .rootPage = some 200
    ∧ serverTerminalStatus .health = some 200
    ∧ serverTerminalStatus .notFound = some 404 := by
  refine ⟨?_, ?_, ?_, ?_, rfl, rfl, rfl, rfl, rfl⟩
  · intro p
    simp [netlifyRoute]
  · intro m p hm hf
    have h1 : ¬(p = "/reviews" ∧ m = "GET") := by
      intro hc
      rw [matchesNetlifyRoute] at hf
      simp [hc.1, hc.2] at hf
    have h2 : ¬(p = "/reviews" ∧ m = "POST") := by
      intro hc
      rw [matchesNetlifyRoute] at hf
      simp [hc.1, hc.2] at hf
    have h3 : ¬(p = "/admin/reviews" ∧ m = "GET") := by
      intro hc
      rw [matchesNetlifyRoute] at hf
      simp [hc.1, hc.2] at hf
    have h4 : ¬(p = "/admin/analytics" ∧ m = "GET") := by
      intro hc
      rw [matchesNetlifyRoute] at hf
      simp [hc.1, hc.2] at hf
    simp only [netlifyRoute, if_neg hm]
    rw [if_neg h1, if_neg h2, if_neg h3, if_neg h4]
  · intro publicFiles p
    simp [serverRoute]
  · intro publicFiles m p hm hf hst hrh
    have h1 : ¬(m = "GET" ∧ p = "/api/reviews") := by
      intro hc
      rw [isLogicalRouteServer] at hf
      simp [hc.1, hc.2] at hf
    have h2 : ¬(m = "POST" ∧ p = "/api/reviews") := by
      intro hc
      rw [isLogicalRouteServer] at hf
      simp [hc.1, hc.2] at hf
    have h3 : ¬(m = "GET" ∧ p = "/api/admin/reviews") := by
      intro hc
      rw [isLogicalRouteServer] at hf
      simp [hc.1, hc.2] at hf
    have h4 : ¬(m = "GET" ∧ p = "/api/admin/analytics") := by
      intro hc
      rw [isLogicalRouteServer] at hf
      simp [hc.1, hc.2] at hf
    rw [serverRoute, if_neg hm, if_neg hst, if_neg h1, if_neg h2,
      if_neg h3, if_neg h4,
      if_neg (fun hc => hrh ⟨hc.1, Or.inl hc.2⟩),
      if_neg (fun hc => hrh ⟨hc.1, Or.inr hc.2⟩)]

/-- Both branches of the read-check-then-insert-or-update succeed:
the post-validation submit core always answers 200. -/
theorem submitCore_status (clock : Nat) (ip : String) (aid : Int)
    (title : String) (r : ℚ) (ts date time ua : Option String)
    (sid : String) (st : Store) :
    (submitCore clock ip aid title r ts date time ua sid st).1.status
      = 200 := by
  cases hfl : st.rows.filter (pairB sid aid) with
  | nil => simp [submitCore, hfl, SubmitResp.status]
  | cons e es => simp [submitCore, hfl, SubmitResp.status]

/-- C2 counterexample: a submit request whose fields are all present
and well-typed, with `audioId = 0` and rating 3 inside [0,5], is
nevertheless answered 400 — so "400 if and only if a required field
is missing or the rating lies outside [0,5]" fails in the only-if
direction (`c2SpecCond`, the claim's condition, is false here). -/
theorem submit_zero_audioId_400_not_spec_missing :
    (submitReview 0 { xForwardedFor := none, xRealIp := none }
      { audioId := some 0, title := some "Track A", rating := some 3,
        timestamp := none, date := none, time := none,
        userAgent := none, sessionId := some "s1" }
      { rows := [], nextId := 1 }).1.status = 400
    ∧ c2SpecCond
      { audioId := some 0, title := some "Track A", rating := some 3,
        timestamp := none, date := none, time := none,
        userAgent := none, sessionId := some "s1" } = false := by
  refine ⟨by decide, by decide⟩

/-- C2 amended: the submit handler answers 400 exactly when a required
field is missing or falsy (`audioId` equal to 0, empty `title` or
`sessionId`, absent `rating`) or the rating lies outside [0,5]; in
every such case — in particular for any rating strictly below 0 or
strictly above 5 — the store is returned unchanged (no write
occurs). -/
theorem submit_400_iff_falsy_or_range (clock : Nat) (h : Headers)
    (b : ReviewBody) (st : Store) :
    ((submitReview clock h b st).1.status = 400 ↔ c2CodeCond b = true)
    ∧ (c2CodeCond b = true → (submitReview clock h b st).2 = st) := by
  by_cases hb1 : (jsFalsyInt b.audioId || jsFalsyStr b.title
      || b.rating.isNone || jsFalsyStr b.sessionId) = true
  · constructor
    · simp [submitReview, hb1, SubmitResp.status, c2CodeCond]
    · intro _
      simp [submitReview, hb1]
  · obtain ⟨⟨⟨hA, hB⟩, hC⟩, hD⟩ :
        ((jsFalsyInt b.audioId = false ∧ jsFalsyStr b.title = false)
          ∧ ¬b.rating = none) ∧ jsFalsyStr b.sessionId = false := by
      simpa using hb1
    cases hr : b.rating with
    | none => exact absurd hr hC
    | some r =>
      by_cases hb2 : (b.rating.getD 0 < 0 ∨ 5 < b.rating.getD 0)
      · have hb2' : r < 0 ∨ 5 < r := by
          rw [hr] at hb2
          simpa using hb2
        constructor
        · rw [submitReview, if_neg (by simp [hA, hB, hD, hr]),
            if_pos hb2]
          simp [SubmitResp.status, c2CodeCond, hA, hB, hD, hr, hb2']
        · intro _
          rw [submitReview, if_neg (by simp [hA, hB, hD, hr]),
            if_pos hb2]
      · have hb2' : ¬(r < 0 ∨ 5 < r) := by
          rw [hr] at hb2
          simpa using hb2
        have hs : (submitReview clock h b st).1.status = 200 := by
          rw [submitReview, if_neg (by simp [hA, hB, hD, hr]),
            if_neg hb2]
          apply submitCore_status
        constructor
        · rw [hs]
          simp [c2CodeCond, hA, hB, hD, hr, hb2']
        · intro hcond
          simp [c2CodeCond, hA, hB, hD, hr] at hcond
          exact absurd hcond hb2'

/-- C2 witness: the amended theorem applied at a concrete
out-of-range request — rating 6 trips the 400 condition and leaves a
concrete one-row store unchanged. -/
theorem submit_400_iff_falsy_or_range_witness :
    c2CodeCond
      { audioId := some 1, title := some "Track A", rating := some 6,
        timestamp := none, date := none, time := none,
        userAgent := none, sessionId := some "s1" } = true
    ∧ (submitReview 0 { xForwardedFor := none, xRealIp := none }
        { audioId := some 1, title := some "Track A", rating := some 6,
          timestamp := none, date := none, time := none,
          userAgent := none, sessionId := some "s1" }
        { rows := [], nextId := 1 }).2 = { rows := [], nextId := 1 } :=
  ⟨by decide,
   (submit_400_iff_falsy_or_range 0
      { xForwardedFor := none, xRealIp := none }
      { audioId := some 1, title := some "Track A", rating := some 6,
        timestamp := none, date := none, time := none,
        userAgent := none, sessionId := some "s1" }
      { rows := [], nextId := 1 }).2 (by decide)⟩

/-- C3: for a non-empty `sessionId` the session listing succeeds
(status 200, success body) and returns exactly the stored rows whose
`session_id` equals it — a permutation of that filtered set, sorted
newest-first by `created_at`, each row mapped 1:1 through `toPublic`
into the public shape; when the session has zero rows the result is
the empty sequence. -/
theorem getReviews_filters_sorts_maps (sid : String) (store : List Row)
    (hs : ¬sid = "") :
    ∃ sorted : List Row,
      getReviews (some sid) store = .ok (sorted.map toPublic)
      ∧ sorted.Perm
          (store.filter (fun r => r.session_id = sid))
      ∧ List.Sorted revOrd sorted
      ∧ (getReviews (some sid) store).status = 200
      ∧ (store.filter (fun r => r.session_id = sid) = [] →
          getReviews (some sid) store = .ok []) := by
  have hg : getReviews (some sid) store =
      .ok (((store.filter (fun r => r.session_id = sid)).insertionSort
        revOrd).map toPublic) := by
    rw [getReviews, if_neg (by simp [jsFalsyStr, hs])]
    simp
  refine ⟨(store.filter (fun r => r.session_id = sid)).insertionSort
    revOrd, hg, List.perm_insertionSort revOrd _,
    List.sorted_insertionSort revOrd _, by rw [hg]; rfl, ?_⟩
  intro hempty
  rw [hg, hempty]
  rfl

/-- A concrete stored row of session s1, used by concrete instances
below. -/
def sampleRow1 : Row :=
  { id := 1, audio_id := 2, title := "A", rating := 4,
    timestamp := none, date := some "d", time := some "t",
    user_agent := none, session_id := "s1", ip_address := none,
    created_at := 10, updated_at := 10 }

/-- A concrete stored row of a different session s2, used by concrete
instances below. -/
def sampleRow2 : Row :=
  { id := 2, audio_id := 2, title := "B", rating := 3,
    timestamp := none, date := some "d", time := some "t",
    user_agent := none, session_id := "s2", ip_address := none,
    created_at := 11, updated_at := 11 }

/-- C3 witness: the listing theorem applied at a concrete session and
a two-row store (one matching row, one foreign row). -/
theorem getReviews_filters_sorts_maps_witness :
    ¬("s1" : String) = ""
    ∧ ∃ sorted : List Row,
      getReviews (some "s1") [sampleRow1, sampleRow2]
        = .ok (sorted.map toPublic)
      ∧ sorted.Perm
          ([sampleRow1, sampleRow2].filter
            (fun r => r.session_id = "s1"))
      ∧ List.Sorted revOrd sorted
      ∧ (getReviews (some "s1") [sampleRow1, sampleRow2]).status = 200
      ∧ ([sampleRow1, sampleRow2].filter
            (fun r => r.session_id = "s1") = [] →
          getReviews (some "s1") [sampleRow1, sampleRow2] = .ok []) :=
  ⟨by decide,
   getReviews_filters_sorts_maps "s1" [sampleRow1, sampleRow2]
     (by decide)⟩

/-- C7: on the admin list with format omitted (so json), the omitted
limit and offset default to 1000 and 0; the response holds the page of
reviews ordered by `created_at` descending (drop offset, take limit of
a sorted permutation of the whole store, mapped 1:1 through
`toAdmin`), a totalCount that is the store's total row count coming
from the window count — read off the first page row, hence 0 when the
page is empty — and a pagination object echoing the effective limit
and offset. -/
theorem getAllReviews_defaults_page_totalCount
    (limit offset : Option Nat) (store : List Row) :
    ∃ sorted : List Row,
      sorted.Perm store
      ∧ List.Sorted revOrd sorted
      ∧ getAllReviews limit offset none store =
          .json { success := true,
                  reviews := ((sorted.drop (offset.getD 0)).take
                    (limit.getD 1000)).map toAdmin,
                  totalCount :=
                    if ((sorted.drop (offset.getD 0)).take
                        (limit.getD 1000)).isEmpty then 0
                    else store.length,
                  pagination := { limit := limit.getD 1000,
                                  offset := offset.getD 0 } } := by
  refine ⟨store.insertionSort revOrd, List.perm_insertionSort revOrd _,
    List.sorted_insertionSort revOrd _, ?_⟩
  rw [getAllReviews]
  simp

/-- The conditional update applied to every row by the `UPDATE`
statement leaves the (session_id, audio_id) key of every row
unchanged. -/
theorem pairB_update_invariant (sid : String) (aid : Int) (clock : Nat)
    (ip title : String) (r : ℚ) (ts d t ua : Option String)
    (row : Row) :
    pairB sid aid
      (if pairB sid aid row then
        updatedRow clock ip title r ts d t ua row
      else row) = pairB sid aid row := by
  by_cases hp : pairB sid aid row = true
  · simp only [hp, if_pos]
    simp [pairB, updatedRow] at hp ⊢
    exact hp
  · simp [hp]

/-- The conditional update leaves every row's primary key `id`
unchanged. -/
theorem update_keeps_id (sid : String) (aid : Int) (clock : Nat)
    (ip title : String) (r : ℚ) (ts d t ua : Option String)
    (row : Row) :
    (if pairB sid aid row then
      updatedRow clock ip title r ts d t ua row
    else row).id = row.id := by
  by_cases hp : pairB sid aid row = true <;> simp [hp, updatedRow]

/-- Filtering for a (session, audio) pair commutes with the `UPDATE`
row mutation, which never changes that key. -/
theorem filter_map_update (sid : String) (aid : Int) (clock : Nat)
    (ip title : String) (r : ℚ) (ts d t ua : Option String)
    (rows : List Row) :
    (rows.map (fun row =>
      if pairB sid aid row then
        updatedRow clock ip title r ts d t ua row
      else row)).filter (pairB sid aid)
    = (rows.filter (pairB sid aid)).map (fun row =>
        if pairB sid aid row then
          updatedRow clock ip title r ts d t ua row
        else row) := by
  rw [List.filter_map]
  have hfn : (pairB sid aid ∘ fun row =>
      if pairB sid aid row then
        updatedRow clock ip title r ts d t ua row
      else row) = pairB sid aid := by
    funext row
    exact pairB_update_invariant sid aid clock ip title r ts d t ua row
  rw [hfn]

/-- Shape of the submit core when no row matches the pair: the
`INSERT` branch appends the new row and returns the fresh serial
id. -/
theorem submitCore_insert (clock : Nat) (ip : String) (aid : Int)
    (title : String) (r : ℚ) (ts date time ua : Option String)
    (sid : String) (st : Store)
    (hfl : st.rows.filter (pairB sid aid) = []) :
    submitCore clock ip aid title r ts date time ua sid st
    = (.ok st.nextId,
       { rows := st.rows ++
          [insertedRow clock ip aid title r ts date time ua sid
            st.nextId],
         nextId := st.nextId + 1 }) := by
  simp [submitCore, hfl]

/-- Shape of the submit core when some row matches the pair: the
`UPDATE` branch maps the conditional mutation over the table and
returns the first matching row's id. -/
theorem submitCore_update (clock : Nat) (ip : String) (aid : Int)
    (title : String) (r : ℚ) (ts date time ua : Option String)
    (sid : String) (st : Store) (e : Row) (es : List Row)
    (hfl : st.rows.filter (pairB sid aid) = e :: es) :
    submitCore clock ip aid title r ts date time ua sid st
    = (.ok e.id,
       { st with rows := st.rows.map (fun row =>
          if pairB sid aid row then
            updatedRow clock ip title r ts date time ua row
          else row) }) := by
  simp [submitCore, hfl]

/-- A freshly inserted row matches its own (session, audio) pair. -/
theorem pairB_insertedRow (clock : Nat) (ip : String) (aid : Int)
    (title : String) (r : ℚ) (ts date time ua : Option String)
    (sid : String) (id : Nat) :
    pairB sid aid
      (insertedRow clock ip aid title r ts date time ua sid id)
      = true := by
  simp [pairB, insertedRow]

/-- A valid submit request reduces to the post-validation core with
the request's own pair, title, rating and client IP. -/
theorem submitReview_valid_eq (clock : Nat) (h : Headers)
    (b : ReviewBody) (st : Store) (sid : String) (aid : Int)
    (hv : validBody b = true) (ha : b.audioId = some aid)
    (hs : b.sessionId = some sid) :
    submitReview clock h b st
    = submitCore clock (clientIp h) aid (b.title.getD "")
        (b.rating.getD 0) b.timestamp b.date b.time b.userAgent sid
        st := by
  obtain ⟨⟨⟨⟨⟨hA, hB⟩, hC⟩, hD⟩, h0⟩, h5⟩ :
      ((((jsFalsyInt b.audioId = false ∧ jsFalsyStr b.title = false)
        ∧ b.rating.isSome = true) ∧ jsFalsyStr b.sessionId = false)
        ∧ 0 ≤ b.rating.getD 0) ∧ b.rating.getD 0 ≤ 5 := by
    simpa [validBody, Bool.and_eq_true, and_assoc] using hv
  rw [submitReview,
    if_neg (by simp [hA, hB, hD, Option.isNone_iff_eq_none,
      ← Option.not_isSome_iff_eq_none, hC]),
    if_neg (by
      rw [not_or]
      exact ⟨not_lt.mpr h0, not_lt.mpr h5⟩),
    ha, hs]
  rfl

/-- C1: starting from any store that respects the one-row-per-pair
invariant for a given (sessionId, audioId) pair, two successive valid
submissions with that pair both succeed, the second returns the same
id as the first (the `UPDATE ... RETURNING id` path), and the store
still holds at most one row for the pair — the second submission
updated the existing row instead of inserting a second one. -/
theorem submit_twice_same_pair_updates_row (clock₁ clock₂ : Nat)
    (h₁ h₂ : Headers) (b₁ b₂ : ReviewBody) (st : Store) (sid : String)
    (aid : Int) (hv₁ : validBody b₁ = true) (hv₂ : validBody b₂ = true)
    (ha₁ : b₁.audioId = some aid) (hs₁ : b₁.sessionId = some sid)
    (ha₂ : b₂.audioId = some aid) (hs₂ : b₂.sessionId = some sid)
    (hinv : countPair sid aid st ≤ 1) :
    ∃ i : Nat,
      (submitReview clock₁ h₁ b₁ st).1 = .ok i
      ∧ (submitReview clock₂ h₂ b₂
          (submitReview clock₁ h₁ b₁ st).2).1 = .ok i
      ∧ countPair sid aid
          (submitReview clock₂ h₂ b₂
            (submitReview clock₁ h₁ b₁ st).2).2 ≤ 1 := by
  rw [submitReview_valid_eq clock₁ h₁ b₁ st sid aid hv₁ ha₁ hs₁]
  cases hfl : st.rows.filter (pairB sid aid) with
  | nil =>
    rw [submitCore_insert clock₁ (clientIp h₁) aid (b₁.title.getD "")
      (b₁.rating.getD 0) b₁.timestamp b₁.date b₁.time b₁.userAgent sid
      st hfl]
    have hfl₁ : ((st.rows ++
        [insertedRow clock₁ (clientIp h₁) aid (b₁.title.getD "")
          (b₁.rating.getD 0) b₁.timestamp b₁.date b₁.time b₁.userAgent
          sid st.nextId]).filter (pairB sid aid))
        = [insertedRow clock₁ (clientIp h₁) aid (b₁.title.getD "")
            (b₁.rating.getD 0) b₁.timestamp b₁.date b₁.time
            b₁.userAgent sid st.nextId] := by
      rw [List.filter_append, hfl]
      simp [List.filter_cons, pairB_insertedRow]
    rw [submitReview_valid_eq clock₂ h₂ b₂ _ sid aid hv₂ ha₂ hs₂,
      submitCore_update clock₂ (clientIp h₂) aid (b₂.title.getD "")
        (b₂.rating.getD 0) b₂.timestamp b₂.date b₂.time b₂.userAgent
        sid _ _ [] hfl₁]
    refine ⟨st.nextId, rfl, by rw [insertedRow], ?_⟩
    rw [countPair]
    rw [filter_map_update, hfl₁]
    simp
  | cons e es =>
    have hes : es = [] := by
      rw [countPair, hfl] at hinv
      simpa [Nat.succ_le_succ_iff, List.length_eq_zero] using hinv
    subst hes
    rw [submitCore_update clock₁ (clientIp h₁) aid (b₁.title.getD "")
      (b₁.rating.getD 0) b₁.timestamp b₁.date b₁.time b₁.userAgent sid
      st e [] hfl]
    have hfl₁ : ((st.rows.map (fun row =>
        if pairB sid aid row then
          updatedRow clock₁ (clientIp h₁) (b₁.title.getD "")
            (b₁.rating.getD 0) b₁.timestamp b₁.date b₁.time
            b₁.userAgent row
        else row)).filter (pairB sid aid))
        = [if pairB sid aid e then
            updatedRow clock₁ (clientIp h₁) (b₁.title.getD "")
              (b₁.rating.getD 0) b₁.timestamp b₁.date b₁.time
              b₁.userAgent e
          else e] := by
      rw [filter_map_update, hfl]
      rfl
    rw [submitReview_valid_eq clock₂ h₂ b₂ _ sid aid hv₂ ha₂ hs₂,
      submitCore_update clock₂ (clientIp h₂) aid (b₂.title.getD "")
        (b₂.rating.getD 0) b₂.timestamp b₂.date b₂.time b₂.userAgent
        sid _ _ [] hfl₁]
    refine ⟨e.id, rfl, ?_, ?_⟩
    · rw [update_keeps_id]
    · rw [countPair]
      rw [filter_map_update, hfl₁]
      simp

/-- C1 witness: two concrete valid submissions for the pair
(s1, 2) against an initially empty store — the insert then the update
both return id 1 and the store holds one row for the pair. -/
theorem submit_twice_same_pair_updates_row_witness :
    validBody
      { audioId := some 2, title := some "Track A", rating := some 4,
        timestamp := none, date := some "d", time := some "t",
        userAgent := none, sessionId := some "s1" } = true
    ∧ countPair "s1" 2 { rows := [], nextId := 1 } ≤ 1
    ∧ ∃ i : Nat,
      (submitReview 10 { xForwardedFor := none, xRealIp := none }
        { audioId := some 2, title := some "Track A", rating := some 4,
          timestamp := none, date := some "d", time := some "t",
          userAgent := none, sessionId := some "s1" }
        { rows := [], nextId := 1 }).1 = .ok i
      ∧ (submitReview 20 { xForwardedFor := none, xRealIp := none }
          { audioId := some 2, title := some "Track A",
            rating := some 4, timestamp := none, date := some "d",
            time := some "t", userAgent := none,
            sessionId := some "s1" }
          (submitReview 10 { xForwardedFor := none, xRealIp := none }
            { audioId := some 2, title := some "Track A",
              rating := some 4, timestamp := none, date := some "d",
              time := some "t", userAgent := none,
              sessionId := some "s1" }
            { rows := [], nextId := 1 }).2).1 = .ok i
      ∧ countPair "s1" 2
          (submitReview 20 { xForwardedFor := none, xRealIp := none }
            { audioId := some 2, title := some "Track A",
              rating := some 4, timestamp := none, date := some "d",
              time := some "t", userAgent := none,
              sessionId := some "s1" }
            (submitReview 10 { xForwardedFor := none, xRealIp := none }
              { audioId := some 2, title := some "Track A",
                rating := some 4, timestamp := none, date := some "d",
                time := some "t", userAgent := none,
                sessionId := some "s1" }
              { rows := [], nextId := 1 }).2).2 ≤ 1 :=
  ⟨by decide, by decide,
   submit_twice_same_pair_updates_row 10 20
     { xForwardedFor := none, xRealIp := none }
     { xForwardedFor := none, xRealIp := none }
     { audioId := some 2, title := some "Track A", rating := some 4,
       timestamp := none, date := some "d", time := some "t",
       userAgent := none, sessionId := some "s1" }
     { audioId := some 2, title := some "Track A", rating := some 4,
       timestamp := none, date := some "d", time := some "t",
       userAgent := none, sessionId := some "s1" }
     { rows := [], nextId := 1 } "s1" 2
     (by decide) (by decide) rfl rfl rfl rfl (by decide)⟩

/-- C8 witness: the amended routing facts evaluated at concrete
requests — an unknown DELETE path is answered 404 by the serverless
dispatcher, the standalone cors middleware intercepts a concrete
OPTIONS request, and the same DELETE pair reaches the standalone
catch-all (no public assets). -/
theorem routing_preflight_and_404_witness :
    netlifyRoute "DELETE" "/nope" = .resp ⟨404, corsHeaders, notFoundBody⟩
    ∧ serverRoute ["/app.js"] "OPTIONS" "/x" = .preflight
    ∧ serverRoute [] "DELETE" "/nope" = .notFound :=
  ⟨routing_preflight_and_404.2.1 "DELETE" "/nope" (by decide) (by decide),
   routing_preflight_and_404.2.2.1 ["/app.js"] "/x",
   routing_preflight_and_404.2.2.2.1 [] "DELETE" "/nope" (by decide)
     (by decide) (by decide) (by decide)⟩
